import Mathlib

/-
Verification of the gorp query-plan builder (Radiobox/gorp).

The repository contains several historical variants of the query builder:
  * `query.go` part 1 (V1 below): the filter-algebra variant
    (`combinedFilter`, `comparisonFilter`, `andFilter`, ...), whose
    package-level `Greater`/`GreaterOrEqual` constructors emit `=`.
  * `query.go` part 2 (V2 below): the string-based variant whose
    `addWhere` appends even on resolution failure and whose `OrderBy`
    performs no direction validation.
  * `query.go` part 3 (V3 below): the string-based variant with a fixed
    `addWhere` (early return on failure), validated `OrderBy`, and
    `>` / `>=` operators.
  * `query_plans.go` (QP below): the join-capable variant built on the
    filter algebra.

Go interface values used as field pointers are compared by identity; we
model a field address as a `Nat` (pointer identity).  Values attached to
filters and assignments are never inspected by the code (they are Go
`interface` values), so the embedding is parameterised by a type `α` of
user values; the `int64` limit/offset values that the renderers append to
the same argument list are modelled by the `Arg.num` constructor.

The executor and the database are external collaborators: every terminal
call is modelled up to the point where the executor would be invoked,
returning either the error produced before execution or the SQL text and
argument list that would be handed to the executor.
-/

namespace Gorp

/-- One mapped column: gorp `ColumnMap` restricted to the fields the query
builder reads (`ColumnName` and `Transient`). -/
structure ColumnMap where
  ColumnName : String
  Transient : Bool
deriving DecidableEq, Repr

/-- The dialect collaborator: deterministic, side-effect-free string
functions (gorp `Dialect`), restricted to the members the query builder
calls. -/
structure Dialect where
  QuoteField : String → String
  QuotedTableForQuery : String → String → String
  BindVar : Nat → String

/-- The table-metadata collaborator: gorp `TableMap` restricted to what the
query builder reads.  `colMapLookup` models `TableMap.ColMap`, which in Go
panics when the name is unknown; the `none` result stands for that panic
(never reached on the inputs the claims use).  `dialect` models the
`table.dbmap.Dialect` access path. -/
structure TableMap where
  SchemaName : String
  TableName : String
  columns : List ColumnMap
  colMapLookup : String → Option ColumnMap
  dialect : Dialect

/-- A reflective view of a Go struct: a plain (non-anonymous) field with its
name, address and exported flag (`PkgPath == ""`), or an anonymous/embedded
struct whose fields are flattened by `mapColumns`. -/
inductive FieldNode where
  | plain (name : String) (addr : Nat) (exported : Bool)
  | anon (sub : List FieldNode)
deriving Repr

/-- An entry of the positional argument list: either a user-supplied value
(Go `interface` argument) or an `int64` appended by limit/offset
rendering. -/
inductive Arg (α : Type) where
  | val (a : α)
  | num (n : Int)
deriving DecidableEq, Repr

/-- Error message of `structColumnMap.fieldMapForPointer` for transient
columns (`query_plans.go`). -/
def transientErr : String := "gorp: Cannot run queries against transient columns"

/-- Error message of `structColumnMap.fieldMapForPointer` when no binding
matches the pointer (`query_plans.go`). -/
def fieldNotFoundErr : String := "gorp: Cannot find a field matching the passed in pointer"

/-- Error message recorded by `QueryPlan.OrderBy` for an invalid direction
(`query_plans.go`). -/
def invalidDirectionErr : String :=
  "gorp: Order by direction must be empty string, \"asc\", or \"desc\""

/-- Go `strings.ToLower`, restricted to the ASCII directions the builder
compares against: character-wise lowercasing. -/
def strToLower (s : String) : String := ⟨s.data.map Char.toLower⟩

/-- `fieldColumnMap` of `query_plans.go`: one field-address/column binding.
(The `query.go` part 1 version omits `quotedTable`; its lookup behaviour is
otherwise identical, see `columnForPointer`.) -/
structure fieldColumnMap where
  addr : Nat
  column : ColumnMap
  quotedTable : String
  quotedColumn : String
deriving DecidableEq, Repr

/-- `structColumnMap`: the binding set of one plan. -/
abbrev structColumnMap : Type := List fieldColumnMap

/-- `structColumnMap.fieldMapForPointer` (`query_plans.go` lines 277-287):
first binding whose address equals the pointer; transient columns fail. -/
def fieldMapForPointer : structColumnMap → Nat → Except String fieldColumnMap
  | [], _ => .error fieldNotFoundErr
  | fieldMap :: rest, fieldPtr =>
    if fieldMap.addr = fieldPtr then
      if fieldMap.column.Transient then .error transientErr
      else .ok fieldMap
    else fieldMapForPointer rest fieldPtr

/-- `structColumnMap.columnForPointer`: the pre-quoted column for a field
pointer.  This is also the lookup the `query.go` part 1 filter algebra
uses (there inlined over its three-field `fieldColumnMap`, with the same
first-match, transient-check and message behaviour). -/
def columnForPointer (structMap : structColumnMap) (fieldPtr : Nat) : Except String String :=
  match fieldMapForPointer structMap fieldPtr with
  | .error e => .error e
  | .ok fieldMap => .ok fieldMap.quotedColumn

/-- `structColumnMap.tableColumnForPointer`: pre-quoted `table.column`. -/
def tableColumnForPointer (structMap : structColumnMap) (fieldPtr : Nat) : Except String String :=
  match fieldMapForPointer structMap fieldPtr with
  | .error e => .error e
  | .ok fieldMap => .ok (fieldMap.quotedTable ++ "." ++ fieldMap.quotedColumn)

mutual

/-- Body of the `mapColumns` loop for one struct field (`query_plans.go`
lines 387-405): an anonymous sub-struct is flattened in place; an exported
plain field is bound to `table.ColMap(field name)`.  Go panics when
`ColMap` finds no column; that (unreached) case contributes no binding
here. -/
def mapColumnsField (table : TableMap) : FieldNode → structColumnMap
  | .anon sub => mapColumns table sub
  | .plain name addr exported =>
    if exported then
      match table.colMapLookup name with
      | some col =>
        [{ addr := addr
           column := col
           quotedTable := table.dialect.QuotedTableForQuery table.SchemaName table.TableName
           quotedColumn := table.dialect.QuoteField col.ColumnName }]
      | none => []
    else []

/-- `QueryPlan.mapColumns` (`query_plans.go` lines 380-408) as a pure
function over the reflective struct view: fields are bound in order, with
embedded structs flattened into the same binding set. -/
def mapColumns (table : TableMap) : List FieldNode → structColumnMap
  | [] => []
  | field :: rest => mapColumnsField table field ++ mapColumns table rest

end

/-- The filter tree (`query.go` part 1): comparisons, null checks, negation
and AND/OR combinations (`comparisonFilter`, `nullFilter`,
`notNullFilter`, `notFilter`, `andFilter`, `orFilter`). -/
inductive Filter (α : Type) where
  | comparison (addr : Nat) (comparison : String) (value : α)
  | null (addr : Nat)
  | notNull (addr : Nat)
  | not (sub : Filter α)
  | and (subFilters : List (Filter α))
  | or (subFilters : List (Filter α))

mutual

/-- `Filter.Where` (`query.go` part 1): render a filter to a SQL fragment
and its positional arguments, binding from `startBindIdx`. -/
def Filter.Where {α : Type} : Filter α → structColumnMap → Dialect → Nat →
    Except String (String × List (Arg α))
  | .comparison addr comparison value, structMap, dialect, startBindIdx =>
    match columnForPointer structMap addr with
    | .error e => .error e
    | .ok column => .ok (column ++ comparison ++ dialect.BindVar startBindIdx, [.val value])
  | .null addr, structMap, _, _ =>
    match columnForPointer structMap addr with
    | .error e => .error e
    | .ok column => .ok (column ++ " IS NULL", [])
  | .notNull addr, structMap, _, _ =>
    match columnForPointer structMap addr with
    | .error e => .error e
    | .ok column => .ok (column ++ " IS NOT NULL", [])
  | .not sub, structMap, dialect, startBindIdx =>
    match Filter.Where sub structMap dialect startBindIdx with
    | .error e => .error e
    | .ok (whereStr, args) => .ok ("NOT " ++ whereStr, args)
  | .and subFilters, structMap, dialect, startBindIdx =>
    match joinFiltersGo " and " structMap dialect startBindIdx subFilters "" [] true with
    | .error e => .error e
    | .ok (buf, args) =>
      .ok ((if 1 < subFilters.length then "(" else "") ++ buf ++
            (if 1 < subFilters.length then ")" else ""), args)
  | .or subFilters, structMap, dialect, startBindIdx =>
    match joinFiltersGo " or " structMap dialect startBindIdx subFilters "" [] true with
    | .error e => .error e
    | .ok (buf, args) =>
      .ok ((if 1 < subFilters.length then "(" else "") ++ buf ++
            (if 1 < subFilters.length then ")" else ""), args)

/-- Loop body of `combinedFilter.joinFilters` (`query.go` part 1 lines
28-49): each sub-filter renders at start index `startBindIdx` plus the
number of arguments accumulated so far; the separator precedes every
fragment except the first; the first error aborts the rendering. -/
def joinFiltersGo {α : Type} (separator : String) (structMap : structColumnMap)
    (dialect : Dialect) (startBindIdx : Nat) :
    List (Filter α) → String → List (Arg α) → Bool → Except String (String × List (Arg α))
  | [], buf, args, _ => .ok (buf, args)
  | subFilter :: rest, buf, args, first =>
    match Filter.Where subFilter structMap dialect (startBindIdx + args.length) with
    | .error e => .error e
    | .ok (nextWhere, nextArgs) =>
      joinFiltersGo separator structMap dialect startBindIdx rest
        (buf ++ (if first then "" else separator) ++ nextWhere) (args ++ nextArgs) false

end

/-- `Greater` (`query.go` part 1 lines 176-179).  Its doc comment reads
"Greater returns a filter for fieldPtr > value", yet it emits `=`. -/
def Greater {α : Type} (fieldPtr : Nat) (value : α) : Filter α :=
  .comparison fieldPtr "=" value

/-- `GreaterOrEqual` (`query.go` part 1 lines 181-184).  Its doc comment
reads "GreaterOrEqual returns a filter for fieldPtr >= value", yet it
emits `=`. -/
def GreaterOrEqual {α : Type} (fieldPtr : Nat) (value : α) : Filter α :=
  .comparison fieldPtr "=" value

/-- `Less` (`query.go` part 1). -/
def Less {α : Type} (fieldPtr : Nat) (value : α) : Filter α :=
  .comparison fieldPtr "<" value

/-- `Equal` (`query.go` part 1). -/
def Equal {α : Type} (fieldPtr : Nat) (value : α) : Filter α :=
  .comparison fieldPtr "=" value

/-- `combinedFilter.joinFilters` (`query.go` part 1 lines 28-49): the loop
wrapped in parentheses when there is more than one sub-filter. -/
def joinFilters {α : Type} (separator : String) (structMap : structColumnMap)
    (dialect : Dialect) (startBindIdx : Nat) (subFilters : List (Filter α)) :
    Except String (String × List (Arg α)) :=
  match joinFiltersGo separator structMap dialect startBindIdx subFilters "" [] true with
  | .error e => .error e
  | .ok (buf, args) =>
    .ok ((if 1 < subFilters.length then "(" else "") ++ buf ++
          (if 1 < subFilters.length then ")" else ""), args)

namespace QP

/-- A stored join of the join-capable variant (`joinFilter` in
`query_plans.go`): the pre-quoted joined table and its ON-filters.

Modelled from the spec: the `joinFilter` type itself is declared in a file
of this repository that is not under `src/` (only its uses in
`query_plans.go` are).  Per spec section 4.3, `On` for a join "is
equivalent to Filter for a WhereQuery", so the ON-filters are kept as an
ordered list combined with AND. -/
structure JoinFilter (α : Type) where
  quotedJoinTable : String
  filters : List (Gorp.Filter α)

/-- Modelled from the spec: `joinFilter.Where` is declared outside `src/`.
Per spec sections 4.2/4.3 the ON-filters of a join render like a default
(AND) combination of filters, with the usual bind-index threading. -/
def JoinFilter.Where {α : Type} (join : JoinFilter α) (structMap : structColumnMap)
    (dialect : Dialect) (startBindIdx : Nat) : Except String (String × List (Arg α)) :=
  Gorp.joinFilters " and " structMap dialect startBindIdx join.filters

/-- Modelled from the spec: `joinFilter.JoinClause` is declared outside
`src/`.  Per spec section 4.3 a SELECT renders `[<join clauses>]` after the
FROM clause; each clause names the joined table and its ON condition. -/
def JoinFilter.JoinClause {α : Type} (join : JoinFilter α) (structMap : structColumnMap)
    (dialect : Dialect) (startBindIdx : Nat) : Except String (String × List (Arg α)) :=
  match join.Where structMap dialect startBindIdx with
  | .error e => .error e
  | .ok (onClause, args) =>
    .ok (" inner join " ++ join.quotedJoinTable ++ " on " ++ onClause, args)

/-- The `MultiFilter` held in `QueryPlan.filters`: either the `andFilter`
allocated by `Where` or the pending `joinFilter` allocated by `Join`. -/
inductive MultiF (α : Type) where
  | and (subFilters : List (Gorp.Filter α))
  | join (join : JoinFilter α)

/-- `QueryPlan` of `query_plans.go` (lines 304-337), restricted to the
fields that determine generated SQL and its argument list.  `dbMap`,
`executor` and `target` are the external-collaborator handles; the
dialect they provide is reached through `table.dialect`.  `filters` is
`none` for the nil `MultiFilter` of a fresh plan. -/
structure Plan (α : Type) where
  Errors : List String
  table : TableMap
  colMap : structColumnMap
  joins : List (JoinFilter α)
  assignCols : List String
  assignBindVars : List String
  filters : Option (MultiF α)
  orderBy : List String
  groupBy : List String
  limit : Int
  offset : Int
  args : List (Arg α)

/-- Dispatch of `plan.filters.Where` (Go interface dispatch on the stored
`MultiFilter`).  A nil `MultiFilter` would make the Go code panic; the
`none` case (never exercised by the claims) renders as an empty where
clause. -/
def filtersWhere {α : Type} : Option (MultiF α) → structColumnMap → Dialect → Nat →
    Except String (String × List (Arg α))
  | none, _, _, _ => .ok ("", [])
  | some (.and subFilters), structMap, dialect, startBindIdx =>
    Gorp.joinFilters " and " structMap dialect startBindIdx subFilters
  | some (.join join), structMap, dialect, startBindIdx =>
    join.Where structMap dialect startBindIdx

/-- `QueryPlan.whereClause` (`query_plans.go` lines 548-558): render the
stored filters at start index `len(plan.args)`; on success with a
non-empty fragment, append the arguments and prefix `" where "`. -/
def whereClause {α : Type} (plan : Plan α) : Except String (String × Plan α) :=
  match filtersWhere plan.filters plan.colMap plan.table.dialect plan.args.length with
  | .error e => .error e
  | .ok (whereStr, whereArgs) =>
    if whereStr ≠ "" then
      .ok (" where " ++ whereStr, { plan with args := plan.args ++ whereArgs })
    else
      .ok ("", plan)

/-- Loop of `QueryPlan.selectJoinClause` (`query_plans.go` lines 560-571),
threading the growing argument list through `len(plan.args)`. -/
def selectJoinClauseGo {α : Type} (structMap : structColumnMap) (dialect : Dialect) :
    List (JoinFilter α) → String → List (Arg α) → Except String (String × List (Arg α))
  | [], buf, args => .ok (buf, args)
  | join :: rest, buf, args =>
    match join.JoinClause structMap dialect args.length with
    | .error e => .error e
    | .ok (joinClause, joinArgs) =>
      selectJoinClauseGo structMap dialect rest (buf ++ joinClause) (args ++ joinArgs)

/-- `QueryPlan.selectJoinClause`. -/
def selectJoinClause {α : Type} (plan : Plan α) : Except String (String × Plan α) :=
  match selectJoinClauseGo plan.colMap plan.table.dialect plan.joins "" plan.args with
  | .error e => .error e
  | .ok (buf, args) => .ok (buf, { plan with args := args })

/-- The column-list loop of `QueryPlan.selectQuery` (`query_plans.go` lines
604-613): a comma precedes every column whose index is non-zero, and
transient columns contribute nothing (their index still counts). -/
def selectColumns (dialect : Dialect) (quotedTable : String) :
    List ColumnMap → Nat → String
  | [], _ => ""
  | col :: rest, index =>
    (if !col.Transient then
      (if index ≠ 0 then "," else "") ++ quotedTable ++ "." ++ dialect.QuoteField col.ColumnName
     else "") ++ selectColumns dialect quotedTable rest (index + 1)

/-- The `" order by "` / `" group by "` loops of the renderers: the clause
keyword precedes the first entry and `", "` precedes the rest. -/
def clauseList (keyword separator : String) : List String → String
  | [] => ""
  | entry :: rest => keyword ++ String.intercalate separator (entry :: rest)

/-- `QueryPlan.selectQuery` (`query_plans.go` lines 597-654): the first
accumulated error short-circuits; otherwise the SELECT text is rendered and
the argument list grows with the join, where, offset and limit
arguments in placeholder order. -/
def selectQuery {α : Type} (plan : Plan α) : Except String (String × Plan α) :=
  match plan.Errors with
  | e :: _ => .error e
  | [] =>
    let quotedTable := plan.table.dialect.QuotedTableForQuery plan.table.SchemaName plan.table.TableName
    let colList := selectColumns plan.table.dialect quotedTable plan.table.columns 0
    match selectJoinClause plan with
    | .error e => .error e
    | .ok (joinClause, plan1) =>
      match whereClause plan1 with
      | .error e => .error e
      | .ok (wc, plan2) =>
        let base := "select " ++ colList ++ " from " ++ quotedTable ++ joinClause ++ wc ++
          clauseList " order by " ", " plan2.orderBy ++
          clauseList " group by " ", " plan2.groupBy
        let step3 : String × Plan α :=
          if 0 < plan2.offset then
            (base ++ " offset " ++ plan2.table.dialect.BindVar plan2.args.length,
             { plan2 with args := plan2.args ++ [.num plan2.offset] })
          else (base, plan2)
        let step4 : String × Plan α :=
          if 0 < step3.2.limit then
            (step3.1 ++ " fetch next (" ++ step3.2.table.dialect.BindVar step3.2.args.length ++
               ") rows only",
             { step3.2 with args := step3.2.args ++ [.num step3.2.limit] })
          else step3
        .ok step4

/-- Outcome of a terminal call that either returns an error before reaching
the executor or hands SQL text and arguments to it. -/
inductive ExecOutcome (α : Type) where
  | err (e : String)
  | run (sql : String) (args : List (Arg α))

/-- Outcome of `Update`/`Delete`: an early `(count, error)` return, or the
executor invocation. -/
inductive RowsOutcome (α : Type) where
  | ret (rows : Int) (e : Option String)
  | run (sql : String) (args : List (Arg α))

/-- `QueryPlan.Select` (`query_plans.go` lines 574-580) up to the executor
boundary: render via `selectQuery`; an error is returned without invoking
the executor. -/
def select {α : Type} (plan : Plan α) : ExecOutcome α :=
  match selectQuery plan with
  | .error e => .err e
  | .ok (query, plan1) => .run query plan1.args

/-- `QueryPlan.Insert` (`query_plans.go` lines 657-681) up to the executor
boundary. -/
def insert {α : Type} (plan : Plan α) : ExecOutcome α :=
  match plan.Errors with
  | e :: _ => .err e
  | [] =>
    .run ("insert into " ++
      plan.table.dialect.QuotedTableForQuery plan.table.SchemaName plan.table.TableName ++
      " (" ++ String.intercalate ", " plan.assignCols ++ ") values (" ++
      String.intercalate ", " plan.assignBindVars ++ ")") plan.args

/-- The SET-clause loop shared by the UPDATE renderers:
`col=bindVar` pairs joined by `", "`. -/
def setClause (assignCols assignBindVars : List String) : String :=
  String.intercalate ", " (List.zipWith (fun col bindVar => col ++ "=" ++ bindVar)
    assignCols assignBindVars)

/-- Loop of `QueryPlan.joinFromAndWhereClause` (`query_plans.go` lines
685-698): collect each join's quoted table and its rendered where clause,
threading the argument list. -/
def joinFromWhereGo {α : Type} (structMap : structColumnMap) (dialect : Dialect) :
    List (JoinFilter α) → List String → String → List (Arg α) →
    Except String (List String × String × List (Arg α))
  | [], fromSlice, whereBuf, args => .ok (fromSlice, whereBuf, args)
  | join :: rest, fromSlice, whereBuf, args =>
    match join.Where structMap dialect args.length with
    | .error e => .error e
    | .ok (wc, whereArgs) =>
      joinFromWhereGo structMap dialect rest (fromSlice ++ [join.quotedJoinTable])
        (whereBuf ++ wc) (args ++ whereArgs)

/-- `QueryPlan.joinFromAndWhereClause`. -/
def joinFromAndWhereClause {α : Type} (plan : Plan α) :
    Except String (String × String × Plan α) :=
  match joinFromWhereGo plan.colMap plan.table.dialect plan.joins [] "" plan.args with
  | .error e => .error e
  | .ok (fromSlice, whereBuf, args) =>
    .ok (String.intercalate ", " fromSlice, whereBuf, { plan with args := args })

/-- `QueryPlan.Update` (`query_plans.go` lines 701-746) up to the executor
boundary.  Note lines 718-721: an error from `joinFromAndWhereClause` is
answered with `return -1, nil`, dropping the error. -/
def update {α : Type} (plan : Plan α) : RowsOutcome α :=
  match plan.Errors with
  | e :: _ => .ret (-1) (some e)
  | [] =>
    let base := "update " ++
      plan.table.dialect.QuotedTableForQuery plan.table.SchemaName plan.table.TableName ++
      " set " ++ setClause plan.assignCols plan.assignBindVars
    match joinFromAndWhereClause plan with
    | .error _ => .ret (-1) none
    | .ok (joinTables, joinWhereClause, plan1) =>
      let base := if joinTables ≠ "" then base ++ " from " ++ joinTables else base
      match whereClause plan1 with
      | .error e => .ret (-1) (some e)
      | .ok (wc, plan2) =>
        let wc :=
          if joinWhereClause ≠ "" then
            (if wc = "" then " where" else wc) ++ " " ++ joinWhereClause
          else wc
        .run (base ++ wc) plan2.args

/-- `QueryPlan.Delete` (`query_plans.go` lines 749-784) up to the executor
boundary (here a join-rendering error is propagated). -/
def delete {α : Type} (plan : Plan α) : RowsOutcome α :=
  match plan.Errors with
  | e :: _ => .ret (-1) (some e)
  | [] =>
    let base := "delete from " ++
      plan.table.dialect.QuotedTableForQuery plan.table.SchemaName plan.table.TableName
    match joinFromAndWhereClause plan with
    | .error e => .ret (-1) (some e)
    | .ok (joinTables, joinWhereClause, plan1) =>
      let base := if joinTables ≠ "" then base ++ " using " ++ joinTables else base
      match whereClause plan1 with
      | .error e => .ret (-1) (some e)
      | .ok (wc, plan2) =>
        let wc :=
          if joinWhereClause ≠ "" then
            (if wc = "" then " where" else wc) ++ " " ++ joinWhereClause
          else wc
        .run (base ++ wc) plan2.args

/-- `AssignQueryPlan.Assign` (`query_plans.go` lines 844-854): resolve the
column; on failure only the error accumulator grows; on success the
column, a bind variable at index `len(plan.args)` and the value are
appended. -/
def Assign {α : Type} (plan : Plan α) (fieldPtr : Nat) (value : α) : Plan α :=
  match columnForPointer plan.colMap fieldPtr with
  | .error e => { plan with Errors := plan.Errors ++ [e] }
  | .ok column =>
    { plan with
        assignCols := plan.assignCols ++ [column]
        assignBindVars := plan.assignBindVars ++ [plan.table.dialect.BindVar plan.args.length]
        args := plan.args ++ [.val value] }

/-- Direction test of `QueryPlan.OrderBy` (`query_plans.go` lines
514-520): the lower-cased direction must be `"asc"`, `"desc"` or empty. -/
def validDirection (direction : String) : Bool :=
  strToLower direction = "asc" || strToLower direction = "desc" || strToLower direction = ""

/-- `QueryPlan.OrderBy` (`query_plans.go` lines 508-523): resolve the
column, validate the direction, and append only the column — the
direction string is discarded. -/
def OrderBy {α : Type} (plan : Plan α) (fieldPtr : Nat) (direction : String) : Plan α :=
  match tableColumnForPointer plan.colMap fieldPtr with
  | .error e => { plan with Errors := plan.Errors ++ [e] }
  | .ok column =>
    if validDirection direction then
      { plan with orderBy := plan.orderBy ++ [column] }
    else
      { plan with Errors := plan.Errors ++ [invalidDirectionErr] }

/-- `QueryPlan.GroupBy` (`query_plans.go` lines 526-534). -/
def GroupBy {α : Type} (plan : Plan α) (fieldPtr : Nat) : Plan α :=
  match tableColumnForPointer plan.colMap fieldPtr with
  | .error e => { plan with Errors := plan.Errors ++ [e] }
  | .ok column => { plan with groupBy := plan.groupBy ++ [column] }

end QP

namespace V2

mutual

/-- Body of the `findFieldType` loop for one struct field: an anonymous
sub-struct is searched recursively; a plain field matches when its address
equals the pointer. -/
def findFieldTypeNode : FieldNode → Nat → Option String
  | .anon sub, fieldPtr => findFieldType sub fieldPtr
  | .plain name addr _, fieldPtr => if addr = fieldPtr then some name else none

/-- `findFieldType` (`query.go` part 2 lines 993-1011): recursive walk of
the target struct matching the field pointer by identity; the first match
wins. -/
def findFieldType : List FieldNode → Nat → Option String
  | [], _ => none
  | field :: rest, fieldPtr =>
    match findFieldTypeNode field fieldPtr with
    | some name => some name
    | none => findFieldType rest fieldPtr

end

/-- `QueryPlan` of `query.go` part 2 (lines 935-970), restricted to the
fields that determine generated SQL and its argument list.  Note that
`orderBy`, `orderByDirection` and `groupBy` are single strings in this
variant, and the where clause is a list of pre-rendered strings. -/
structure Plan (α : Type) where
  Errors : List String
  table : TableMap
  target : List FieldNode
  assignCols : List String
  assignBindVars : List String
  whereList : List String
  orderBy : String
  orderByDirection : String
  groupBy : String
  limit : Int
  offset : Int
  args : List (Arg α)

/-- `QueryPlan.ColumnForPointer` (`query.go` part 2 lines 1013-1031): find
the struct field matching the pointer, then look its column up by name;
the `ColMap` panic for an unknown name is recovered into an error. -/
def ColumnForPointer {α : Type} (plan : Plan α) (fieldPtr : Nat) : Except String ColumnMap :=
  match findFieldType plan.target fieldPtr with
  | none => .error "gorp: Could not find a field matching the passed in field pointer"
  | some name =>
    match plan.table.colMapLookup name with
    | none => .error "gorp: The passed in field does not seem to match a column in the applicable table"
    | some col => .ok col

/-- `QueryPlan.columnOperatorString` (`query.go` part 2 lines 1033-1047):
quoted column, operator and a bind variable at index `len(plan.args)`;
transient columns fail.  (The dead `column == nil` branch after a nil
error is omitted: `ColumnForPointer` never returns a nil column without an
error.) -/
def columnOperatorString {α : Type} (plan : Plan α) (fieldPtr : Nat) (operator : String) :
    Except String String :=
  match ColumnForPointer plan fieldPtr with
  | .error e => .error e
  | .ok column =>
    if column.Transient then .error "gorp: Cannot query transient column"
    else
      .ok (plan.table.dialect.QuoteField column.ColumnName ++ operator ++
        plan.table.dialect.BindVar plan.args.length)

/-- `QueryPlan.addWhere` (`query.go` part 2 lines 1049-1056): on a
resolution error the error is recorded, but the (empty) where string and
the value are appended all the same. -/
def addWhere {α : Type} (plan : Plan α) (fieldPtr : Nat) (operator : String) (value : α) :
    Plan α :=
  match columnOperatorString plan fieldPtr operator with
  | .error e =>
    { plan with
        Errors := plan.Errors ++ [e]
        whereList := plan.whereList ++ [""]
        args := plan.args ++ [.val value] }
  | .ok whereStr =>
    { plan with
        whereList := plan.whereList ++ [whereStr]
        args := plan.args ++ [.val value] }

/-- `QueryPlan.OrderBy` (`query.go` part 2 lines 1099-1108): the column
name and the direction are stored with no validation of the direction;
an invalid direction is only detected later, inside `Select`. -/
def OrderBy {α : Type} (plan : Plan α) (fieldPtr : Nat) (direction : String) : Plan α :=
  match ColumnForPointer plan fieldPtr with
  | .error e => { plan with Errors := plan.Errors ++ [e] }
  | .ok column =>
    { plan with orderBy := column.ColumnName, orderByDirection := direction }

end V2

namespace V3

/-- `fieldColMap` of `query.go` part 3 (lines 1422-1434). -/
structure fieldColMap where
  addr : Nat
  column : ColumnMap
  quotedColumn : String
deriving DecidableEq, Repr

/-- `QueryPlan` of `query.go` part 3 (lines 1442-1473), restricted to the
fields that determine generated SQL and its argument list. -/
structure Plan (α : Type) where
  Errors : List String
  table : TableMap
  targetColMap : List fieldColMap
  assignCols : List String
  assignBindVars : List String
  whereList : List String
  orderBy : List String
  groupBy : List String
  limit : Int
  offset : Int
  args : List (Arg α)

/-- `QueryPlan.ColumnForPointer` (`query.go` part 3 lines 1528-1538):
first binding whose address matches; transient columns fail. -/
def ColumnForPointer : List fieldColMap → Nat → Except String String
  | [], _ => .error fieldNotFoundErr
  | fieldMap :: rest, fieldPtr =>
    if fieldMap.addr = fieldPtr then
      if fieldMap.column.Transient then .error transientErr
      else .ok fieldMap.quotedColumn
    else ColumnForPointer rest fieldPtr

/-- `QueryPlan.addWhere` (`query.go` part 3 lines 1540-1549): on a
resolution error only the error accumulator grows; otherwise
`column ++ operator ++ bindVar` and the value are appended. -/
def addWhere {α : Type} (plan : Plan α) (fieldPtr : Nat) (operator : String) (value : α) :
    Plan α :=
  match ColumnForPointer plan.targetColMap fieldPtr with
  | .error e => { plan with Errors := plan.Errors ++ [e] }
  | .ok column =>
    { plan with
        whereList := plan.whereList ++
          [column ++ operator ++ plan.table.dialect.BindVar plan.args.length]
        args := plan.args ++ [.val value] }

/-- `QueryPlan.Greater` (`query.go` part 3 lines 1582-1585): this variant
uses the `>` operator. -/
def Greater {α : Type} (plan : Plan α) (fieldPtr : Nat) (value : α) : Plan α :=
  addWhere plan fieldPtr ">" value

/-- `QueryPlan.GreaterOrEqual` (`query.go` part 3 lines 1587-1590): this
variant uses the `>=` operator. -/
def GreaterOrEqual {α : Type} (plan : Plan α) (fieldPtr : Nat) (value : α) : Plan α :=
  addWhere plan fieldPtr ">=" value

/-- `QueryPlan.OrderBy` (`query.go` part 3 lines 1592-1607): validated
like the join-capable variant; only the column is appended. -/
def OrderBy {α : Type} (plan : Plan α) (fieldPtr : Nat) (direction : String) : Plan α :=
  match ColumnForPointer plan.targetColMap fieldPtr with
  | .error e => { plan with Errors := plan.Errors ++ [e] }
  | .ok column =>
    if QP.validDirection direction then
      { plan with orderBy := plan.orderBy ++ [column] }
    else
      { plan with Errors := plan.Errors ++ [invalidDirectionErr] }

end V3

/-! Concrete fixtures used by witnesses and counterexamples. -/

/-- A concrete dialect in the shape of gorp's PostgreSQL dialect:
double-quoted identifiers and one-based `$n` bind variables. -/
def exDialect : Dialect :=
  { QuoteField := fun name => "\"" ++ name ++ "\""
    QuotedTableForQuery := fun schema table =>
      if schema = "" then "\"" ++ table ++ "\""
      else "\"" ++ schema ++ "\".\"" ++ table ++ "\""
    BindVar := fun i => "$" ++ toString (i + 1) }

/-- Concrete non-transient `Id` column. -/
def idCol : ColumnMap := { ColumnName := "Id", Transient := false }

/-- Concrete non-transient `Created` column. -/
def createdCol : ColumnMap := { ColumnName := "Created", Transient := false }

/-- Concrete transient `Memo` column. -/
def memoCol : ColumnMap := { ColumnName := "Memo", Transient := true }

/-- A concrete table with two persisted columns and one transient one. -/
def exTable : TableMap :=
  { SchemaName := ""
    TableName := "Inv"
    columns := [idCol, createdCol, memoCol]
    colMapLookup := fun name =>
      if name = "Id" then some idCol
      else if name = "Created" then some createdCol
      else if name = "Memo" then some memoCol
      else none
    dialect := exDialect }

/-- The reference struct for `exTable`: three exported plain fields at
addresses 1, 2, 3. -/
def exFields : List FieldNode :=
  [.plain "Id" 1 true, .plain "Created" 2 true, .plain "Memo" 3 true]

/-- The binding set `mapColumns` builds for `exTable` over `exFields`. -/
def exColMap : structColumnMap := mapColumns exTable exFields

/-- A fresh join-capable plan over `exTable` after a bare `Where()` call
(`filters` is the empty `andFilter`). -/
def basePlan : QP.Plan Nat :=
  { Errors := []
    table := exTable
    colMap := exColMap
    joins := []
    assignCols := []
    assignBindVars := []
    filters := some (.and [])
    orderBy := []
    groupBy := []
    limit := 0
    offset := 0
    args := [] }

/-- A fresh plan of the `query.go` part 3 variant over `exTable`. -/
def v3BasePlan : V3.Plan Nat :=
  { Errors := []
    table := exTable
    targetColMap :=
      [⟨1, idCol, "\"Id\""⟩, ⟨2, createdCol, "\"Created\""⟩, ⟨3, memoCol, "\"Memo\""⟩]
    assignCols := []
    assignBindVars := []
    whereList := []
    orderBy := []
    groupBy := []
    limit := 0
    offset := 0
    args := [] }

/-! Claim theorems. -/

/-- Claim C1: for every join-capable plan whose error accumulator is
non-empty, each of the four terminal calls returns exactly the first
recorded error — `Select` and `Insert` as the error value, `Update` and
`Delete` as `(-1, first error)` — and none of them reaches the executor
(the outcome is never the `run` constructor). -/
theorem terminal_calls_return_first_error {α : Type} (plan : QP.Plan α) (e : String)
    (rest : List String) (h : plan.Errors = e :: rest) :
    QP.select plan = .err e ∧ QP.insert plan = .err e ∧
    QP.update plan = .ret (-1) (some e) ∧ QP.delete plan = .ret (-1) (some e) := by
  refine ⟨?_, ?_, ?_, ?_⟩ <;>
    simp only [QP.select, QP.selectQuery, QP.insert, QP.update, QP.delete, h]

/-- A plan carrying two construction errors. -/
def c1Plan : QP.Plan Nat := { basePlan with Errors := ["first error", "second error"] }

/-- Witness for C1: on a plan with two recorded errors, every terminal
call reports the first one. -/
theorem terminal_calls_return_first_error_witness :
    QP.select c1Plan = .err "first error" ∧ QP.insert c1Plan = .err "first error" ∧
    QP.update c1Plan = .ret (-1) (some "first error") ∧
    QP.delete c1Plan = .ret (-1) (some "first error") :=
  terminal_calls_return_first_error c1Plan "first error" ["second error"] rfl

/-- Claim C2 (code bug): the `Greater` and `GreaterOrEqual` filter
constructors of `query.go` part 1 render the `=` operator — against their
own doc comments ("a filter for fieldPtr > value" and "... >= value") —
while the later variant of `query.go` renders `>` and `>=`. -/
theorem greater_renders_equals :
    (Greater 2 (5 : Nat)).Where exColMap exDialect 0 = .ok ("\"Created\"=$1", [.val 5]) ∧
    (GreaterOrEqual 2 (5 : Nat)).Where exColMap exDialect 0 = .ok ("\"Created\"=$1", [.val 5]) ∧
    (V3.Greater v3BasePlan 2 (5 : Nat)).whereList = ["\"Created\">$1"] ∧
    (V3.GreaterOrEqual v3BasePlan 2 (5 : Nat)).whereList = ["\"Created\">=$1"] :=
  ⟨rfl, rfl, rfl, rfl⟩

/-- Claim C10: in the join-capable variant, `OrderBy` discards the
direction string: for every plan and field pointer, the plans produced
with directions `""`, `"asc"` and `"desc"` are identical, and so is the
SQL rendered by `Select`. -/
theorem orderby_ignores_valid_direction {α : Type} (plan : QP.Plan α) (fieldPtr : Nat) :
    QP.OrderBy plan fieldPtr "asc" = QP.OrderBy plan fieldPtr "" ∧
    QP.OrderBy plan fieldPtr "desc" = QP.OrderBy plan fieldPtr "" ∧
    QP.selectQuery (QP.OrderBy plan fieldPtr "asc") =
      QP.selectQuery (QP.OrderBy plan fieldPtr "") ∧
    QP.selectQuery (QP.OrderBy plan fieldPtr "desc") =
      QP.selectQuery (QP.OrderBy plan fieldPtr "") := by
  have hasc : QP.OrderBy plan fieldPtr "asc" = QP.OrderBy plan fieldPtr "" := by
    unfold QP.OrderBy
    cases tableColumnForPointer plan.colMap fieldPtr <;> rfl
  have hdesc : QP.OrderBy plan fieldPtr "desc" = QP.OrderBy plan fieldPtr "" := by
    unfold QP.OrderBy
    cases tableColumnForPointer plan.colMap fieldPtr <;> rfl
  exact ⟨hasc, hdesc, by rw [hasc], by rw [hdesc]⟩

/-- A table whose first column is transient. -/
def c7Table : TableMap := { exTable with columns := [memoCol, createdCol] }

/-- A plan over `c7Table` with no filters, ordering or paging. -/
def c7Plan : QP.Plan Nat := { basePlan with table := c7Table }

/-- Claim C7 (code bug): when the table's first column is transient, the
rendered SELECT column list carries a stray leading comma — the comma is
written for every non-transient column whose index is non-zero, so the
output is not the comma-separated list of quoted non-transient columns. -/
theorem select_leading_comma_when_first_transient :
    QP.select c7Plan = .run "select ,\"Inv\".\"Created\" from \"Inv\"" [] := rfl

/-- Claim C9: in the join-capable variant, when rendering the join
FROM/WHERE clause inside `Update` fails, `Update` answers `(-1, nil)` —
the join-rendering error is dropped, not surfaced. -/
theorem update_drops_join_error {α : Type} (plan : QP.Plan α) (e : String)
    (h0 : plan.Errors = []) (h1 : QP.joinFromAndWhereClause plan = .error e) :
    QP.update plan = .ret (-1) none := by
  simp only [QP.update, h0, h1]

/-- A plan with one join whose ON-filter references the transient column,
so the join where-clause rendering fails. -/
def c9Plan : QP.Plan Nat :=
  { basePlan with
      joins := [{ quotedJoinTable := "\"J\"", filters := [.comparison 3 "=" 7] }] }

/-- Witness for C9: on a concrete plan whose join condition references a
transient column, `Update` returns `(-1, nil)`. -/
theorem update_drops_join_error_witness : QP.update c9Plan = .ret (-1) none :=
  update_drops_join_error c9Plan transientErr rfl rfl

/-- A fresh plan of the `query.go` part 2 variant over `exTable`. -/
def v2BasePlan : V2.Plan Nat :=
  { Errors := []
    table := exTable
    target := exFields
    assignCols := []
    assignBindVars := []
    whereList := []
    orderBy := ""
    orderByDirection := ""
    groupBy := ""
    limit := 0
    offset := 0
    args := [] }

/-- Counterexample to claim C8: in the `query.go` part 2 variant, `OrderBy`
with the direction `"sideways"` (outside the valid set) records no error at
all and mutates the ordering state, so the claim as stated fails on this
variant (validation there happens only later, inside `Select`). -/
theorem orderby_unvalidated_in_part2 :
    (V2.OrderBy v2BasePlan 1 "sideways").Errors = [] ∧
    (V2.OrderBy v2BasePlan 1 "sideways").orderBy = "Id" ∧
    (V2.OrderBy v2BasePlan 1 "sideways").orderByDirection = "sideways" :=
  ⟨rfl, rfl, rfl⟩

/-- Claim C8 as amended: in the join-capable variant, `OrderBy` on a
resolvable field pointer appends `InvalidOrderDirection` and leaves the
ordering list unchanged for every direction outside the valid set
(lower-cased `"asc"`, `"desc"` or empty), and accepts directions in the
set without recording an error. -/
theorem orderby_direction_validation {α : Type} (plan : QP.Plan α) (fieldPtr : Nat)
    (direction : String) (column : String)
    (hres : tableColumnForPointer plan.colMap fieldPtr = .ok column) :
    (QP.validDirection direction = false →
      (QP.OrderBy plan fieldPtr direction).Errors = plan.Errors ++ [invalidDirectionErr] ∧
      (QP.OrderBy plan fieldPtr direction).orderBy = plan.orderBy) ∧
    (QP.validDirection direction = true →
      (QP.OrderBy plan fieldPtr direction).Errors = plan.Errors ∧
      (QP.OrderBy plan fieldPtr direction).orderBy = plan.orderBy ++ [column]) := by
  constructor <;> intro hdir <;> simp [QP.OrderBy, hres, hdir]

/-- Witness for the amended C8: `"sideways"` is rejected without touching
the ordering list, while `"ASC"` (case-insensitively valid) is accepted
without recording an error. -/
theorem orderby_direction_validation_witness :
    ((QP.OrderBy basePlan 1 "sideways").Errors = [] ++ [invalidDirectionErr] ∧
      (QP.OrderBy basePlan 1 "sideways").orderBy = ([] : List String)) ∧
    ((QP.OrderBy basePlan 1 "ASC").Errors = [] ∧
      (QP.OrderBy basePlan 1 "ASC").orderBy = [] ++ ["\"Inv\".\"Id\""]) :=
  ⟨(orderby_direction_validation basePlan 1 "sideways" "\"Inv\".\"Id\"" rfl).1 rfl,
   (orderby_direction_validation basePlan 1 "ASC" "\"Inv\".\"Id\"" rfl).2 rfl⟩

/-- A `query.go` part 2 plan that already carries one recorded error. -/
def c6Plan : V2.Plan Nat := { v2BasePlan with Errors := ["earlier error"] }

/-- Counterexample to claim C6: in the `query.go` part 2 variant, a
builder call made after the accumulator is already non-empty can still
corrupt the plan — `addWhere` on an unresolvable field pointer appends an
empty (malformed) where entry and the orphaned argument value. -/
theorem addwhere_corrupts_in_part2 :
    c6Plan.Errors ≠ [] ∧
    (V2.addWhere c6Plan 99 "=" 7).whereList = [""] ∧
    (V2.addWhere c6Plan 99 "=" 7).args = [.val 7] :=
  ⟨by decide, rfl, rfl⟩

/-- Claim C6 as amended: in the later `query.go` variant, a builder call
whose resolution fails appends only to the error accumulator — the where
entries and the argument list are left unchanged, so the plan state that
determines SQL is never corrupted. -/
theorem addwhere_no_corruption_part3 {α : Type} (plan : V3.Plan α) (fieldPtr : Nat)
    (operator : String) (value : α) (e : String)
    (h : V3.ColumnForPointer plan.targetColMap fieldPtr = .error e) :
    (V3.addWhere plan fieldPtr operator value).whereList = plan.whereList ∧
    (V3.addWhere plan fieldPtr operator value).args = plan.args ∧
    (V3.addWhere plan fieldPtr operator value).Errors = plan.Errors ++ [e] := by
  simp [V3.addWhere, h]

/-! Helper lemmas about the filter-rendering loop and the binding set. -/

/-- String concatenation is associative. -/
theorem strAppendAssoc (a b c : String) : a ++ b ++ c = a ++ (b ++ c) := by
  apply congrArg String.mk
  exact List.append_assoc a.data b.data c.data

/-- Splitting the `joinFilters` loop at a list split: the second part
continues from the first part's buffer and arguments, and is no longer
"first" when the first part is non-empty. -/
theorem joinFiltersGo_append {α : Type} (separator : String) (m : structColumnMap)
    (d : Dialect) (k : Nat) (l₁ l₂ : List (Filter α)) (buf : String) (args : List (Arg α))
    (first : Bool) :
    joinFiltersGo separator m d k (l₁ ++ l₂) buf args first =
      match joinFiltersGo separator m d k l₁ buf args first with
      | .error e => .error e
      | .ok (b, a) => joinFiltersGo separator m d k l₂ b a (first && l₁.isEmpty) := by
  induction l₁ generalizing buf args first with
  | nil => simp [joinFiltersGo]
  | cons f rest ih =>
    simp only [List.cons_append, joinFiltersGo]
    cases hW : Filter.Where f m d (k + args.length) with
    | error e => simp
    | ok pair => cases pair with | mk w newArgs => simp [ih]

/-- A comparison on an unresolvable pointer renders to that resolution
error. -/
theorem comparison_where_error {α : Type} (m : structColumnMap) (d : Dialect) (k : Nat)
    (p : Nat) (c : String) (v : α) (e : String) (h : columnForPointer m p = .error e) :
    Filter.Where (.comparison p c v) m d k = .error e := by
  simp [Filter.Where, h]

/-- `columnForPointer` propagates `fieldMapForPointer` errors. -/
theorem columnForPointer_error (m : structColumnMap) (p : Nat) (e : String)
    (h : fieldMapForPointer m p = .error e) : columnForPointer m p = .error e := by
  simp [columnForPointer, h]

/-- `tableColumnForPointer` propagates `fieldMapForPointer` errors. -/
theorem tableColumnForPointer_error (m : structColumnMap) (p : Nat) (e : String)
    (h : fieldMapForPointer m p = .error e) : tableColumnForPointer m p = .error e := by
  simp [tableColumnForPointer, h]

/-- A successful resolution returns a binding that is in the set and whose
address is the looked-up pointer. -/
theorem fieldMapForPointer_ok_mem (m : structColumnMap) (p : Nat) (fm : fieldColumnMap)
    (h : fieldMapForPointer m p = .ok fm) : fm ∈ m ∧ fm.addr = p := by
  induction m with
  | nil => simp [fieldMapForPointer] at h
  | cons entry rest ih =>
    simp only [fieldMapForPointer] at h
    by_cases hp : entry.addr = p
    · by_cases htr : entry.column.Transient
      · simp [hp, htr] at h
      · simp only [hp, if_true, htr] at h
        rw [if_neg (by simp)] at h
        injection h with h
        subst h
        exact ⟨List.mem_cons_self _ _, hp⟩
    · simp only [hp, if_false] at h
      obtain ⟨h1, h2⟩ := ih h
      exact ⟨List.mem_cons_of_mem entry h1, h2⟩

/-- A successful resolution is unchanged when the binding set later grows
at the end (as `Join` grows it by mapping the joined table). -/
theorem fieldMapForPointer_append (m m₂ : structColumnMap) (p : Nat) (fm : fieldColumnMap)
    (h : fieldMapForPointer m p = .ok fm) :
    fieldMapForPointer (m ++ m₂) p = .ok fm := by
  induction m with
  | nil => simp [fieldMapForPointer] at h
  | cons entry rest ih =>
    simp only [List.cons_append, fieldMapForPointer] at h ⊢
    by_cases hp : entry.addr = p
    · by_cases htr : entry.column.Transient
      · simp [hp, htr] at h
      · simpa [hp, htr] using h
    · simp only [hp, if_false] at h ⊢
      exact ih h

/-! Claims C3, C4, C5. -/

/-- Claim C4: a transient-column field pointer makes `Assign`, `OrderBy`
and `GroupBy` record the transient-column error while leaving their
respective state and the argument list unchanged, and makes the terminal
rendering of a where clause containing a comparison on that pointer fail
with the transient-column error (so no argument of that clause is ever
appended: `whereClause` appends only on success). -/
theorem transient_column_never_used {α : Type} (plan : QP.Plan α) (fieldPtr : Nat)
    (value : α) (direction : String) (cmp : String) (pre : List (Filter α))
    (preStr : String) (preArgs : List (Arg α))
    (ht : fieldMapForPointer plan.colMap fieldPtr = .error transientErr)
    (hpre : joinFiltersGo " and " plan.colMap plan.table.dialect plan.args.length pre "" [] true
              = .ok (preStr, preArgs)) :
    ((QP.Assign plan fieldPtr value).Errors = plan.Errors ++ [transientErr] ∧
     (QP.Assign plan fieldPtr value).assignCols = plan.assignCols ∧
     (QP.Assign plan fieldPtr value).assignBindVars = plan.assignBindVars ∧
     (QP.Assign plan fieldPtr value).args = plan.args) ∧
    ((QP.OrderBy plan fieldPtr direction).Errors = plan.Errors ++ [transientErr] ∧
     (QP.OrderBy plan fieldPtr direction).orderBy = plan.orderBy ∧
     (QP.OrderBy plan fieldPtr direction).args = plan.args) ∧
    ((QP.GroupBy plan fieldPtr).Errors = plan.Errors ++ [transientErr] ∧
     (QP.GroupBy plan fieldPtr).groupBy = plan.groupBy ∧
     (QP.GroupBy plan fieldPtr).args = plan.args) ∧
    QP.whereClause
        { plan with filters := some (.and (pre ++ [.comparison fieldPtr cmp value])) }
      = .error transientErr := by
  have hc : columnForPointer plan.colMap fieldPtr = .error transientErr :=
    columnForPointer_error _ _ _ ht
  have htc : tableColumnForPointer plan.colMap fieldPtr = .error transientErr :=
    tableColumnForPointer_error _ _ _ ht
  refine ⟨?_, ?_, ?_, ?_⟩
  · simp [QP.Assign, hc]
  · simp [QP.OrderBy, htc]
  · simp [QP.GroupBy, htc]
  · simp only [QP.whereClause, QP.filtersWhere, joinFilters]
    rw [joinFiltersGo_append]
    rw [hpre]
    simp [joinFiltersGo, comparison_where_error _ _ _ _ cmp value _ hc]

/-- Witness for C4: on `basePlan` the pointer 3 is bound to the transient
`Memo` column; every builder call with it records the transient error and
leaves SQL-determining state alone, and rendering a where clause
containing it fails with the transient error. -/
theorem transient_column_never_used_witness :
    ((QP.Assign basePlan 3 7).Errors = basePlan.Errors ++ [transientErr] ∧
     (QP.Assign basePlan 3 7).assignCols = basePlan.assignCols ∧
     (QP.Assign basePlan 3 7).assignBindVars = basePlan.assignBindVars ∧
     (QP.Assign basePlan 3 7).args = basePlan.args) ∧
    ((QP.OrderBy basePlan 3 "asc").Errors = basePlan.Errors ++ [transientErr] ∧
     (QP.OrderBy basePlan 3 "asc").orderBy = basePlan.orderBy ∧
     (QP.OrderBy basePlan 3 "asc").args = basePlan.args) ∧
    ((QP.GroupBy basePlan 3).Errors = basePlan.Errors ++ [transientErr] ∧
     (QP.GroupBy basePlan 3).groupBy = basePlan.groupBy ∧
     (QP.GroupBy basePlan 3).args = basePlan.args) ∧
    QP.whereClause
        { basePlan with
            filters := some (.and ([Filter.comparison 2 "=" 9] ++ [.comparison 3 "<" 7])) }
      = .error transientErr :=
  transient_column_never_used basePlan 3 7 "asc" "<" [.comparison 2 "=" 9]
    "\"Created\"=$1" [.val 9] rfl rfl

/-- One comparison predicate, as supplied to the builder: a field pointer,
a comparison operator and a value. -/
structure CompSpec (α : Type) where
  addr : Nat
  cmp : String
  value : α

/-- Whether a field pointer resolves against a binding set. -/
def resolves (m : structColumnMap) (a : Nat) : Bool :=
  match columnForPointer m a with
  | .ok _ => true
  | .error _ => false

/-- The resolved pre-quoted column of a field pointer (empty on failure;
only used under a `resolves` hypothesis). -/
def colStrOf (m : structColumnMap) (a : Nat) : String :=
  match columnForPointer m a with
  | .ok c => c
  | .error _ => ""

/-- The comparison fragments of a predicate list, numbering bind variables
consecutively from `j`: the i-th fragment is
`column_i ++ cmp_i ++ BindVar (j + i)`. -/
def compFrags (m : structColumnMap) (d : Dialect) : Nat → List (CompSpec α) → List String
  | _, [] => []
  | j, s :: rest => (colStrOf m s.addr ++ s.cmp ++ d.BindVar j) :: compFrags m d (j + 1) rest

/-- The buffer shape the `joinFilters` loop produces: every fragment is
preceded by the separator except the first (when `first` is true). -/
def joinedFrom (separator : String) : Bool → List String → String
  | _, [] => ""
  | first, x :: rest =>
    (if first then "" else separator) ++ x ++ joinedFrom separator false rest

/-- A resolving pointer yields its `colStrOf` column. -/
theorem resolves_eq_ok (m : structColumnMap) (a : Nat) (h : resolves m a = true) :
    columnForPointer m a = .ok (colStrOf m a) := by
  revert h
  unfold resolves colStrOf
  cases columnForPointer m a <;> simp

/-- The `joinFilters` loop over a list of comparison predicates that all
resolve: the buffer grows by the separator-joined comparison fragments
with bind indices counting on from `k` plus the arguments already
accumulated, and the argument list grows by exactly the predicate values
in order. -/
theorem joinFiltersGo_comparisons {α : Type} (m : structColumnMap) (d : Dialect) (k : Nat)
    (specs : List (CompSpec α)) :
    ∀ (buf : String) (args : List (Arg α)) (first : Bool),
      (∀ s ∈ specs, resolves m s.addr = true) →
      joinFiltersGo " and " m d k
          (specs.map fun s => Filter.comparison s.addr s.cmp s.value) buf args first
        = .ok (buf ++ joinedFrom " and " first (compFrags m d (k + args.length) specs),
               args ++ specs.map fun s => Arg.val s.value) := by
  induction specs with
  | nil =>
    intro buf args first _
    simp [joinFiltersGo, joinedFrom]
  | cons s rest ih =>
    intro buf args first h
    have hok := resolves_eq_ok m s.addr (h s (List.mem_cons_self s rest))
    simp only [List.map_cons, joinFiltersGo, Filter.Where, hok]
    rw [ih _ _ false (fun t ht => h t (List.mem_cons_of_mem s ht))]
    simp only [compFrags, joinedFrom, List.length_append, List.length_cons,
      List.length_nil, Except.ok.injEq, Prod.mk.injEq, Nat.zero_add, strAppendAssoc]
    exact ⟨rfl, by simp⟩

/-- Claim C3: an AND combination of N comparison predicates that all
resolve, rendered with start index k, produces the fragments
`column_i ++ cmp_i ++ BindVar (k + i)` for i = 0..N-1 joined in order by
`" and "` (parenthesized when N > 1), and returns exactly the N predicate
values as arguments, in order. -/
theorem and_filter_binds_in_order {α : Type} (m : structColumnMap) (d : Dialect) (k : Nat)
    (specs : List (CompSpec α)) (h : ∀ s ∈ specs, resolves m s.addr = true) :
    Filter.Where (.and (specs.map fun s => Filter.comparison s.addr s.cmp s.value)) m d k
      = .ok ((if 1 < specs.length then "(" else "") ++
              joinedFrom " and " true (compFrags m d k specs) ++
              (if 1 < specs.length then ")" else ""),
             specs.map fun s => Arg.val s.value) ∧
    (specs.map fun s => Arg.val s.value).length = specs.length := by
  refine ⟨?_, by simp⟩
  simp only [Filter.Where]
  rw [joinFiltersGo_comparisons m d k specs "" [] true h]
  simp

/-- Witness for C3: two comparison predicates rendered with start index 3
bind `$4` and `$5` in order and return the two values in order. -/
theorem and_filter_binds_in_order_witness :
    Filter.Where
        (.and [Filter.comparison 1 "=" (5 : Nat), Filter.comparison 2 "<" (9 : Nat)])
        exColMap exDialect 3
      = .ok ("(\"Id\"=$4 and \"Created\"<$5)", [.val 5, .val 9]) ∧
    ([Arg.val (5 : Nat), Arg.val 9]).length = 2 := by
  have h := and_filter_binds_in_order exColMap exDialect 3
    [⟨1, "=", (5 : Nat)⟩, ⟨2, "<", 9⟩] (by decide)
  exact h

/-- A struct with an overridden field: the outer `Id` (address 10)
shadows the `Id` of the embedded struct (address 11); both are mapped,
and `table.ColMap("Id")` yields the same column for both.  This mirrors
`OverriddenInvoice` from the repository's tests. -/
def ovFields : List FieldNode :=
  [.plain "Id" 10 true, .anon [.plain "Id" 11 true, .plain "Created" 12 true]]

/-- The binding set `mapColumns` builds over `ovFields`. -/
def ovColMap : structColumnMap := mapColumns exTable ovFields

/-- Counterexample to claim C5: over a struct with an overridden
(shadowed) embedded field, `mapColumns` binds two distinct addresses to
the very same column descriptor, so resolution by field address is not
injective. -/
theorem resolution_not_injective :
    (10 : Nat) ≠ 11 ∧
    Except.map fieldColumnMap.column (fieldMapForPointer ovColMap 10) = .ok idCol ∧
    Except.map fieldColumnMap.column (fieldMapForPointer ovColMap 11) = .ok idCol :=
  ⟨by decide, rfl, rfl⟩

/-- Claim C5 as amended: resolution of an already-resolvable address is
stable under later growth of the binding set (repeated calls within one
plan agree even across joins), and two distinct addresses resolve to
distinct columns provided distinct bound addresses carry distinct column
descriptors — which fails exactly for shadowed embedded fields. -/
theorem resolution_stable_and_injective (m m₂ : structColumnMap) (p q : Nat)
    (fmp fmq : fieldColumnMap)
    (hp : fieldMapForPointer m p = .ok fmp) (hq : fieldMapForPointer m q = .ok fmq)
    (hinj : ∀ e₁ ∈ m, ∀ e₂ ∈ m, e₁.addr ≠ e₂.addr → e₁.column ≠ e₂.column)
    (hpq : p ≠ q) :
    fieldMapForPointer (m ++ m₂) p = .ok fmp ∧ fmp.column ≠ fmq.column := by
  obtain ⟨hmem_p, haddr_p⟩ := fieldMapForPointer_ok_mem m p fmp hp
  obtain ⟨hmem_q, haddr_q⟩ := fieldMapForPointer_ok_mem m q fmq hq
  refine ⟨fieldMapForPointer_append m m₂ p fmp hp, ?_⟩
  exact hinj fmp hmem_p fmq hmem_q (by rw [haddr_p, haddr_q]; exact hpq)

/-- Witness for the amended C5: over `exColMap` (no shadowed fields) the
addresses 1 and 2 resolve to distinct columns, and address 1 still
resolves identically after the binding set grows by a joined table's
binding. -/
theorem resolution_stable_and_injective_witness :
    fieldMapForPointer (exColMap ++ [⟨7, idCol, "\"J\"", "\"Id\""⟩]) 1 =
      .ok ⟨1, idCol, "\"Inv\"", "\"Id\""⟩ ∧
    fieldColumnMap.column ⟨1, idCol, "\"Inv\"", "\"Id\""⟩ ≠
      fieldColumnMap.column ⟨2, createdCol, "\"Inv\"", "\"Created\""⟩ :=
  resolution_stable_and_injective exColMap [⟨7, idCol, "\"J\"", "\"Id\""⟩] 1 2
    ⟨1, idCol, "\"Inv\"", "\"Id\""⟩ ⟨2, createdCol, "\"Inv\"", "\"Created\""⟩
    rfl rfl (by decide) (by decide)

/-- A `query.go` part 3 plan that already carries one recorded error. -/
def c6Plan3 : V3.Plan Nat := { v3BasePlan with Errors := ["earlier error"] }

/-- Witness for the amended C6: after an earlier error, a failing
`addWhere` in the part 3 variant leaves the where list and arguments
untouched and appends only the resolution error. -/
theorem addwhere_no_corruption_part3_witness :
    (V3.addWhere c6Plan3 99 "=" 7).whereList = c6Plan3.whereList ∧
    (V3.addWhere c6Plan3 99 "=" 7).args = c6Plan3.args ∧
    (V3.addWhere c6Plan3 99 "=" 7).Errors = c6Plan3.Errors ++ [fieldNotFoundErr] :=
  addwhere_no_corruption_part3 c6Plan3 99 "=" 7 fieldNotFoundErr rfl

end Gorp
